import Mathlib

/-!
Shallow embedding of the fasting-session lifecycle and analytics engine of
the FastApi backend (src/models/FastingSession.js and the fasting router).
Machine integers are modelled by `ℤ`, JavaScript float arithmetic on the
derived percentage values by `ℚ`, timestamps by milliseconds since the epoch.
-/

namespace FastApi

/-- JavaScript `Math.round x`: the nearest integer, rounding halves up,
i.e. `⌊x + 1/2⌋` (stated via the executable `Rat.floor`). -/
def jsRound (q : ℚ) : ℤ := (q + 1/2).floor

/-- `jsRound` is the floor of `q + 1/2`. -/
theorem jsRound_eq_floor (q : ℚ) : jsRound q = ⌊q + 1/2⌋ := by
  rw [jsRound, Rat.floor_def', Rat.floor_def]

/-- JavaScript `Math.round (x * 100) / 100`: rounding to 2 decimals. -/
def round2 (q : ℚ) : ℚ := (jsRound (q * 100) : ℚ) / 100

/-- Evaluation rule for `jsRound` on a concrete rational. -/
theorem jsRound_eq_of_bounds (q : ℚ) (n : ℤ) (h1 : (n : ℚ) ≤ q + 1/2)
    (h2 : q + 1/2 < n + 1) : jsRound q = n := by
  rw [jsRound_eq_floor]
  exact Int.floor_eq_iff.mpr ⟨h1, by exact_mod_cast h2⟩

/-- Evaluation rule for `round2` on a concrete rational. -/
theorem round2_eq_of_bounds (q : ℚ) (n : ℤ) (h1 : (n : ℚ) ≤ q * 100 + 1/2)
    (h2 : q * 100 + 1/2 < n + 1) : round2 q = (n : ℚ) / 100 := by
  rw [round2, jsRound_eq_of_bounds (q * 100) n h1 h2]

/-- `jsRound` is the identity on integers. -/
theorem jsRound_intCast (n : ℤ) : jsRound (n : ℚ) = n := by
  apply jsRound_eq_of_bounds <;> norm_num

/-- `round2` is the identity on integers. -/
theorem round2_intCast (n : ℤ) : round2 (n : ℚ) = n := by
  have : ((n : ℚ)) * 100 = ((n * 100 : ℤ) : ℚ) := by push_cast; ring
  rw [round2, this, jsRound_intCast]
  push_cast
  ring

/-- JavaScript `d || 1` on a number: `0` is falsy, every other integer is
truthy. -/
def orOne (d : ℤ) : ℤ := if d = 0 then 1 else d

/-- One entry of the object returned by `calculateMetabolicStates`. -/
structure PhaseState where
  duration_minutes : ℤ
  percentage : ℚ
  description : String
deriving DecidableEq, Repr

/-- The four metabolic phases returned by `calculateMetabolicStates`. -/
structure MetabolicStates where
  fed : PhaseState
  transition : PhaseState
  fasting : PhaseState
  ketosis : PhaseState
deriving DecidableEq, Repr

/-- `calculateMetabolicStates` of `FastingSession.js`: partitions
`duration_minutes || 0` into the fed / transition / fasting / ketosis
buckets and derives each bucket's percentage of the whole duration. -/
def calculateMetabolicStates (duration_minutes : Option ℤ) : MetabolicStates :=
  let durationMinutes := duration_minutes.getD 0
  let fedMinutes := min durationMinutes 240
  let transitionMinutes := max 0 (min (durationMinutes - 240) 480)
  let fastingMinutes := max 0 (min (durationMinutes - 720) 240)
  let ketosisMinutes := max 0 (durationMinutes - 960)
  let total := orOne durationMinutes
  { fed :=
      { duration_minutes := fedMinutes
        percentage := round2 ((fedMinutes : ℚ) / (total : ℚ) * 100)
        description := "Fed State - Glucose fuel, No fat burning" }
    transition :=
      { duration_minutes := transitionMinutes
        percentage := round2 ((transitionMinutes : ℚ) / (total : ℚ) * 100)
        description := "Transition - Glycogen fuel, Light fat burning" }
    fasting :=
      { duration_minutes := fastingMinutes
        percentage := round2 ((fastingMinutes : ℚ) / (total : ℚ) * 100)
        description := "Fasting - Fat + Glycogen fuel, Fat burning starts" }
    ketosis :=
      { duration_minutes := ketosisMinutes
        percentage := round2 ((ketosisMinutes : ℚ) / (total : ℚ) * 100)
        description := "Ketosis - Fat + Ketones fuel, Strong fat burning" } }

example : (calculateMetabolicStates (some 600)).fed.duration_minutes = 240 := by decide
example : (calculateMetabolicStates (some 600)).transition.duration_minutes = 360 := by decide
example : (calculateMetabolicStates (some 1000)).ketosis.duration_minutes = 40 := by decide
example : (calculateMetabolicStates (some 1000)).ketosis.percentage = 4 := by
  show round2 _ = _
  rw [show ((((max 0 ((some (1000:ℤ)).getD 0 - 960)) : ℤ) : ℚ) /
      ((orOne ((some (1000:ℤ)).getD 0) : ℤ) : ℚ) * 100) = 4 by norm_num [orOne]]
  exact_mod_cast round2_intCast 4
example : round2 (1300/192 : ℚ) = 677/100 := by
  rw [round2_eq_of_bounds (1300/192) 677 (by norm_num) (by norm_num)]
  norm_num

/-- The `status` enum of the schema. -/
inductive Status
  | active
  | completed
deriving DecidableEq, Repr

/-- The `start_type` enum of the schema. -/
inductive StartType
  | immediate
  | custom
deriving DecidableEq, Repr

/-- The `end_reason` enum of the schema. -/
inductive EndReason
  | completed
  | manually_stopped
  | interrupted
deriving DecidableEq, Repr

/-- The `plan_type` enum of the schema: one of `12:12`, `14:10`, `16:8`,
`18:6`, `20:4`. -/
inductive PlanType
  | p12_12
  | p14_10
  | p16_8
  | p18_6
  | p20_4
deriving DecidableEq, Repr

/-- `parseInt (plan_type.split(':')[0])` evaluated on each of the five
validated `plan_type` literals. -/
def PlanType.planHours : PlanType → ℤ
  | .p12_12 => 12
  | .p14_10 => 14
  | .p16_8 => 16
  | .p18_6 => 18
  | .p20_4 => 20

/-- The object returned by `calculatePlanProgress`. -/
structure PlanProgress where
  plan_hours : ℤ
  completed_hours : ℚ
  completion_percentage : ℚ
  remaining_hours : ℚ
deriving DecidableEq, Repr

/-- `calculatePlanProgress` of `FastingSession.js`: progress of
`duration_minutes || 0` against the hours parsed from `plan_type`. -/
def calculatePlanProgress (duration_minutes : Option ℤ) (plan_type : PlanType) :
    PlanProgress :=
  let planHours := plan_type.planHours
  let completedHours : ℚ := ((duration_minutes.getD 0 : ℤ) : ℚ) / 60
  let completionPercentage := min 100 (round2 (completedHours / (planHours : ℚ) * 100))
  let remainingHours := max 0 ((planHours : ℚ) - completedHours)
  { plan_hours := planHours
    completed_hours := round2 completedHours
    completion_percentage := completionPercentage
    remaining_hours := round2 remainingHours }

/-- A document of the `fasting_sessions` collection, restricted to the
fields the lifecycle and analytics read.  Timestamps are milliseconds. -/
structure Session where
  id : ℕ
  user_id : ℕ
  start_time : ℤ
  end_time : Option ℤ
  duration_minutes : Option ℤ
  start_type : StartType
  custom_start_hours : Option ℕ
  custom_start_minutes : Option ℕ
  status : Status
  plan_type : PlanType
  end_reason : Option EndReason
deriving DecidableEq, Repr

/-- The persisted collection, in insertion order. -/
abbrev Store := List Session

/-- `FastingSession.findActiveSession userId`: the first stored session of
the user with `status = active`. -/
def findActiveSession (st : Store) (userId : ℕ) : Option Session :=
  List.find? (fun s => s.user_id == userId && s.status == Status.active) st

/-- `FastingSession.findOne { _id: sessionId, user_id: userId }`. -/
def findOwnedSession (st : Store) (userId sessionId : ℕ) : Option Session :=
  List.find? (fun s => s.id == sessionId && s.user_id == userId) st

/-- `session.save()` on an existing document: replace the stored document
with the same `_id`. -/
def updateStore (st : Store) (u : Session) : Store :=
  List.map (fun s => if s.id == u.id then u else s) st

/-- The number of the user's stored sessions with `status = active`. -/
def activeCount (st : Store) (userId : ℕ) : ℕ :=
  (List.filter (fun s => s.user_id == userId && s.status == Status.active) st).length

/-- JavaScript truthiness test `!x` on an optional validated non-negative
integer: falsy exactly when absent or zero. -/
def isFalsy (o : Option ℕ) : Bool := o.getD 0 == 0

/-- `calculateCustomStartTime` of the fasting router:
`now − (hours*60 + minutes) * 60 * 1000`. -/
def calculateCustomStartTime (hours minutes : ℕ) (now : ℤ) : ℤ :=
  now - ((hours : ℤ) * 60 + (minutes : ℤ)) * 60 * 1000

/-- The body of `POST /api/fasting/start` after express-validator has
accepted it. -/
structure StartRequest where
  start_type : StartType
  custom_start_hours : Option ℕ
  custom_start_minutes : Option ℕ
  plan_type : PlanType
deriving DecidableEq, Repr

/-- The error responses of `POST /api/fasting/start`. -/
inductive StartError
  | validationError
  | alreadyFasting
deriving DecidableEq, Repr

/-- The error responses of `PUT /api/fasting/stop/:session_id` and of
`GET /api/fasting/analytics/:session_id`. -/
inductive ApiError
  | invalidSession
  | noActiveSession
deriving DecidableEq, Repr

/-- The document built by `new FastingSession({...})` in the start handler,
saved with a fresh id. -/
def newSession (userId newId : ℕ) (startTime : ℤ) (req : StartRequest) : Session :=
  { id := newId
    user_id := userId
    start_time := startTime
    end_time := none
    duration_minutes := none
    start_type := req.start_type
    custom_start_hours :=
      if req.start_type = StartType.custom then req.custom_start_hours else none
    custom_start_minutes :=
      if req.start_type = StartType.custom then req.custom_start_minutes else none
    status := Status.active
    plan_type := req.plan_type
    end_reason := none }

/-- `POST /api/fasting/start`: reject when an active session exists, else
compute the start time (validating the custom offsets) and persist a new
active session. -/
def startSession (st : Store) (userId : ℕ) (req : StartRequest) (now : ℤ)
    (newId : ℕ) : Except StartError Session × Store :=
  match findActiveSession st userId with
  | some _ => (Except.error StartError.alreadyFasting, st)
  | none =>
    match req.start_type with
    | StartType.immediate =>
      let s := newSession userId newId now req
      (Except.ok s, st ++ [s])
    | StartType.custom =>
      if isFalsy req.custom_start_hours && isFalsy req.custom_start_minutes then
        (Except.error StartError.validationError, st)
      else
        let startTime := calculateCustomStartTime (req.custom_start_hours.getD 0)
          (req.custom_start_minutes.getD 0) now
        let s := newSession userId newId startTime req
        (Except.ok s, st ++ [s])

/-- The duration-computing `pre('save')` hook of `FastingSession.js`,
applied when `end_time` was modified: `Math.floor ((end − start) / 60000)`. -/
def applySaveHook (s : Session) : Session :=
  match s.end_time with
  | some e => { s with duration_minutes := some (Int.fdiv (e - s.start_time) 60000) }
  | none => s

/-- `PUT /api/fasting/stop/:session_id`: find the caller's session, require
it to be active, set `end_time` (defaulting to now), `status = completed`,
`end_reason` (defaulting to `completed`), and save (running the hook). -/
def stopSession (st : Store) (userId sessionId : ℕ) (end_time : Option ℤ)
    (end_reason : Option EndReason) (now : ℤ) : Except ApiError Session × Store :=
  match findOwnedSession st userId sessionId with
  | none => (Except.error ApiError.invalidSession, st)
  | some session =>
    if session.status ≠ Status.active then
      (Except.error ApiError.noActiveSession, st)
    else
      let endTime := end_time.getD now
      let updated := applySaveHook { session with
        end_time := some endTime
        status := Status.completed
        end_reason := some (end_reason.getD EndReason.completed) }
      (Except.ok updated, updateStore st updated)

/-- `GET /api/fasting/current`: the active session, its reported
`duration_minutes` computed live when `end_time` is unset; the handler
performs no write, so the store is returned unchanged. -/
def currentSession (st : Store) (userId : ℕ) (now : ℤ) : Option Session × Store :=
  match findActiveSession st userId with
  | none => (none, st)
  | some s =>
    let currentDuration :=
      match s.end_time with
      | some _ => s.duration_minutes
      | none => some (Int.fdiv (now - s.start_time) 60000)
    (some { s with duration_minutes := currentDuration }, st)

/-- The body of a successful `GET /api/fasting/analytics/:session_id`. -/
structure SessionAnalytics where
  session_id : ℕ
  total_duration_minutes : ℤ
  plan_type : PlanType
  metabolic_states : MetabolicStates
  plan_progress : PlanProgress
deriving DecidableEq, Repr

/-- `GET /api/fasting/analytics/:session_id`: analytics of one owned
session, whatever its status. -/
def sessionAnalytics (st : Store) (userId sessionId : ℕ) :
    Except ApiError SessionAnalytics :=
  match findOwnedSession st userId sessionId with
  | none => Except.error ApiError.invalidSession
  | some s =>
    Except.ok
      { session_id := s.id
        total_duration_minutes := s.duration_minutes.getD 0
        plan_type := s.plan_type
        metabolic_states := calculateMetabolicStates s.duration_minutes
        plan_progress := calculatePlanProgress s.duration_minutes s.plan_type }

/-- One day in milliseconds. -/
def msPerDay : ℤ := 1000 * 60 * 60 * 24

/-- `setHours(0,0,0,0)`: truncate a timestamp to midnight. -/
def startOfDay (t : ℤ) : ℤ := Int.fdiv t msPerDay * msPerDay

/-- The streak loop of `GET /api/fasting/analytics/summary`: walk the
sessions in query order, incrementing the streak while the i-th session's
end date lies exactly i days before today, breaking at the first mismatch. -/
def streakLoop (today : ℤ) : List ℤ → ℕ → ℕ → ℕ
  | [], _, streak => streak
  | e :: rest, i, streak =>
    let sessionDate := startOfDay e
    let daysDiff := Int.fdiv (today - sessionDate) msPerDay
    if daysDiff = (i : ℤ) then streakLoop today rest (i + 1) (streak + 1)
    else streak

/-- `current_streak_days` as computed by the summary handler, applied to the
end times of the user's completed sessions in query order (the query sorts
by `start_time` descending). -/
def currentStreakDays (now : ℤ) (completedEndTimes : List ℤ) : ℕ :=
  streakLoop (startOfDay now) completedEndTimes 0 0

/-- `current_streak_days` of the summary route applied to a store: the
user's completed sessions, sorted by `start_time` descending, mapped to
their end times. -/
def summaryStreak (sortedByStartDesc : List Session) (now : ℤ) : ℕ :=
  currentStreakDays now (sortedByStartDesc.map (fun s => s.end_time.getD 0))

/-- Modelled from the spec: helper for `specCurrentStreakDays`, walking one
calendar day at a time while the day has at least one completed session. -/
def specStreakWalk (days : List ℤ) : ℤ → ℕ → ℕ
  | _, 0 => 0
  | day, fuel + 1 =>
    if day ∈ days then specStreakWalk days (day - 1) fuel + 1 else 0

/-- Modelled from the spec: `current_streak_days` — walking backward from
today, count consecutive calendar days (by session `end_time` date) with at
least one completed session, stopping at the first gap; a day with several
completed sessions counts once. -/
def specCurrentStreakDays (now : ℤ) (completedEndTimes : List ℤ) : ℕ :=
  let days := completedEndTimes.map (fun e => Int.fdiv e msPerDay)
  specStreakWalk days (Int.fdiv now msPerDay) days.length

/-- The progress of one in-flight `POST /start` request, split at the await
boundary between the `findActiveSession` read and the `save()` write. -/
inductive OpPhase
  | pending
  | passedCheck
  | rejected
  | finished
deriving DecidableEq, Repr

/-- Two concurrent `POST /start` requests of the same user sharing the
store. -/
structure TwoStarts where
  store : Store
  op1 : OpPhase
  op2 : OpPhase
deriving DecidableEq, Repr

/-- A scheduler decision: which request executes its next await segment. -/
inductive StepId
  | check1
  | write1
  | check2
  | write2
deriving DecidableEq, Repr

/-- One interleaving step of the two concurrent immediate-mode start
requests: a `check` step runs the `findActiveSession` read of the handler,
a `write` step runs the `save()` of a request whose check passed. -/
def concStep (userId : ℕ) (req : StartRequest) (now : ℤ) (s : TwoStarts) :
    StepId → Option TwoStarts
  | StepId.check1 =>
    match s.op1 with
    | OpPhase.pending =>
      some { s with op1 := if (findActiveSession s.store userId).isSome
                           then OpPhase.rejected else OpPhase.passedCheck }
    | _ => none
  | StepId.write1 =>
    match s.op1 with
    | OpPhase.passedCheck =>
      some { s with store := s.store ++ [newSession userId 101 now req]
                    op1 := OpPhase.finished }
    | _ => none
  | StepId.check2 =>
    match s.op2 with
    | OpPhase.pending =>
      some { s with op2 := if (findActiveSession s.store userId).isSome
                           then OpPhase.rejected else OpPhase.passedCheck }
    | _ => none
  | StepId.write2 =>
    match s.op2 with
    | OpPhase.passedCheck =>
      some { s with store := s.store ++ [newSession userId 102 now req]
                    op2 := OpPhase.finished }
    | _ => none

/-- Run a schedule of interleaving steps. -/
def runSchedule (userId : ℕ) (req : StartRequest) (now : ℤ) :
    TwoStarts → List StepId → Option TwoStarts
  | s, [] => some s
  | s, step :: rest =>
    match concStep userId req now s step with
    | some s' => runSchedule userId req now s' rest
    | none => none

/-- Stores reachable from an empty collection through the start and stop
handlers. -/
inductive Reachable : Store → Prop
  | empty : Reachable []
  | start (st : Store) (userId : ℕ) (req : StartRequest) (now : ℤ) (newId : ℕ) :
      Reachable st → Reachable (startSession st userId req now newId).2
  | stop (st : Store) (userId sessionId : ℕ) (end_time : Option ℤ)
      (end_reason : Option EndReason) (now : ℤ) :
      Reachable st → Reachable (stopSession st userId sessionId end_time end_reason now).2

/-- For a non-negative duration the `durationMinutes || 1` divisor of the
percentage computation is `max d 1`. -/
theorem orOne_eq_max (d : ℤ) (hd : 0 ≤ d) : orOne d = max d 1 := by
  unfold orOne
  omega

/-- C1: for every duration d ≥ 0 the four metabolic-phase minute values of
`calculateMetabolicStates` are `min(d,240)`, `clamp(d−240,0,480)`,
`clamp(d−720,0,240)` and `max(0,d−960)`; they sum exactly to d, and each
phase's percentage equals its minutes divided by `max(d,1)`, times 100,
rounded to 2 decimals. -/
theorem C1_metabolic_phase_partition (d : ℤ) (hd : 0 ≤ d) :
    (calculateMetabolicStates (some d)).fed.duration_minutes = min d 240 ∧
    (calculateMetabolicStates (some d)).transition.duration_minutes =
      max 0 (min (d - 240) 480) ∧
    (calculateMetabolicStates (some d)).fasting.duration_minutes =
      max 0 (min (d - 720) 240) ∧
    (calculateMetabolicStates (some d)).ketosis.duration_minutes = max 0 (d - 960) ∧
    (calculateMetabolicStates (some d)).fed.duration_minutes +
      (calculateMetabolicStates (some d)).transition.duration_minutes +
      (calculateMetabolicStates (some d)).fasting.duration_minutes +
      (calculateMetabolicStates (some d)).ketosis.duration_minutes = d ∧
    (calculateMetabolicStates (some d)).fed.percentage =
      round2 ((((calculateMetabolicStates (some d)).fed.duration_minutes : ℤ) : ℚ) /
        ((max d 1 : ℤ) : ℚ) * 100) ∧
    (calculateMetabolicStates (some d)).transition.percentage =
      round2 ((((calculateMetabolicStates (some d)).transition.duration_minutes : ℤ) : ℚ) /
        ((max d 1 : ℤ) : ℚ) * 100) ∧
    (calculateMetabolicStates (some d)).fasting.percentage =
      round2 ((((calculateMetabolicStates (some d)).fasting.duration_minutes : ℤ) : ℚ) /
        ((max d 1 : ℤ) : ℚ) * 100) ∧
    (calculateMetabolicStates (some d)).ketosis.percentage =
      round2 ((((calculateMetabolicStates (some d)).ketosis.duration_minutes : ℤ) : ℚ) /
        ((max d 1 : ℤ) : ℚ) * 100) := by
  simp only [calculateMetabolicStates, Option.getD_some, orOne_eq_max d hd,
    true_and, and_true]
  omega

/-- Witness for C1 at d = 1000. -/
theorem C1_metabolic_phase_partition_witness :
    (0 : ℤ) ≤ 1000 ∧
    ((calculateMetabolicStates (some 1000)).fed.duration_minutes = min 1000 240 ∧
     (calculateMetabolicStates (some 1000)).transition.duration_minutes =
       max 0 (min (1000 - 240) 480) ∧
     (calculateMetabolicStates (some 1000)).fasting.duration_minutes =
       max 0 (min (1000 - 720) 240) ∧
     (calculateMetabolicStates (some 1000)).ketosis.duration_minutes =
       max 0 (1000 - 960) ∧
     (calculateMetabolicStates (some 1000)).fed.duration_minutes +
       (calculateMetabolicStates (some 1000)).transition.duration_minutes +
       (calculateMetabolicStates (some 1000)).fasting.duration_minutes +
       (calculateMetabolicStates (some 1000)).ketosis.duration_minutes = 1000 ∧
     (calculateMetabolicStates (some 1000)).fed.percentage =
       round2 ((((calculateMetabolicStates (some 1000)).fed.duration_minutes : ℤ) : ℚ) /
         ((max 1000 1 : ℤ) : ℚ) * 100) ∧
     (calculateMetabolicStates (some 1000)).transition.percentage =
       round2 ((((calculateMetabolicStates (some 1000)).transition.duration_minutes : ℤ) : ℚ) /
         ((max 1000 1 : ℤ) : ℚ) * 100) ∧
     (calculateMetabolicStates (some 1000)).fasting.percentage =
       round2 ((((calculateMetabolicStates (some 1000)).fasting.duration_minutes : ℤ) : ℚ) /
         ((max 1000 1 : ℤ) : ℚ) * 100) ∧
     (calculateMetabolicStates (some 1000)).ketosis.percentage =
       round2 ((((calculateMetabolicStates (some 1000)).ketosis.duration_minutes : ℤ) : ℚ) /
         ((max 1000 1 : ℤ) : ℚ) * 100)) :=
  ⟨by decide, C1_metabolic_phase_partition 1000 (by decide)⟩

/-- The store left by the start handler: unchanged on failure, or extended
by one fresh session when the active-session check passed. -/
theorem startSession_store (st : Store) (userId : ℕ) (req : StartRequest)
    (now : ℤ) (newId : ℕ) :
    (startSession st userId req now newId).2 = st ∨
    (findActiveSession st userId = none ∧
      ∃ t, (startSession st userId req now newId).2 =
        st ++ [newSession userId newId t req]) := by
  unfold startSession
  cases hfind : findActiveSession st userId with
  | some s => left; rfl
  | none =>
    cases hty : req.start_type with
    | immediate => right; exact ⟨rfl, now, rfl⟩
    | custom =>
      by_cases hv : (isFalsy req.custom_start_hours &&
          isFalsy req.custom_start_minutes) = true
      · left; simp [hv]
      · right
        refine ⟨rfl, calculateCustomStartTime (req.custom_start_hours.getD 0)
          (req.custom_start_minutes.getD 0) now, ?_⟩
        simp [hv]

/-- C2 (amended): each single start handler call, executed atomically,
preserves the at-most-one-active-session invariant. -/
theorem C2_serialized_start_invariant (st : Store) (userId : ℕ)
    (req : StartRequest) (now : ℤ) (newId : ℕ)
    (h : activeCount st userId ≤ 1) :
    activeCount (startSession st userId req now newId).2 userId ≤ 1 := by
  rcases startSession_store st userId req now newId with heq | ⟨hfind, t, heq⟩
  · rw [heq]; exact h
  · rw [heq]
    have hzero : activeCount st userId = 0 := by
      unfold activeCount
      rw [List.length_eq_zero, List.filter_eq_nil_iff]
      intro a ha
      exact List.find?_eq_none.mp hfind a ha
    unfold activeCount at hzero ⊢
    rw [List.filter_append, List.length_append, hzero]
    cases hpx : (fun s => s.user_id == userId && s.status == Status.active)
        (newSession userId newId t req) <;>
      simp [List.filter_singleton, hpx]

/-- Witness for C2 at the empty store. -/
theorem C2_serialized_start_invariant_witness :
    activeCount [] 1 ≤ 1 ∧
    activeCount (startSession [] 1
      ⟨StartType.immediate, none, none, PlanType.p16_8⟩ 0 101).2 1 ≤ 1 :=
  ⟨by decide, C2_serialized_start_invariant [] 1
    ⟨StartType.immediate, none, none, PlanType.p16_8⟩ 0 101 (by decide)⟩

/-- C2 counterexample: interleaving the `findActiveSession` checks and the
`save()` writes of two concurrent immediate starts of user 1 on an empty
store ends with two sessions of that user in `status = active`. -/
theorem C2_counterexample :
    (runSchedule 1 ⟨StartType.immediate, none, none, PlanType.p16_8⟩ 0
        ⟨[], OpPhase.pending, OpPhase.pending⟩
        [StepId.check1, StepId.check2, StepId.write1, StepId.write2]).map
      (fun s => activeCount s.store 1) = some 2 := by decide

/-- The duration/end-time relationship of one stored document:
`duration_minutes` is set iff `end_time` is, and then holds
`floor((end_time − start_time)/60000)`. -/
def durationInvariant (s : Session) : Prop :=
  (s.duration_minutes = none ↔ s.end_time = none) ∧
  ∀ e dm, s.end_time = some e → s.duration_minutes = some dm →
    dm = Int.fdiv (e - s.start_time) 60000

/-- Every member of an updated store is the replacement or an old member. -/
theorem mem_updateStore (st : Store) (u x : Session) (hx : x ∈ updateStore st u) :
    x = u ∨ x ∈ st := by
  unfold updateStore at hx
  rcases List.mem_map.mp hx with ⟨y, hy, heq⟩
  by_cases h : (y.id == u.id) = true
  · left; rw [← heq]; simp [h]
  · right
    rw [← heq]
    simp only [h, if_false, Bool.false_eq_true]
    exact hy

/-- The store left by the stop handler: unchanged on failure, or one
document replaced by a completed session satisfying the duration
invariant. -/
theorem stopSession_store (st : Store) (userId sessionId : ℕ) (e : Option ℤ)
    (r : Option EndReason) (now : ℤ) :
    (stopSession st userId sessionId e r now).2 = st ∨
    ∃ u, durationInvariant u ∧ u.status = Status.completed ∧
      (stopSession st userId sessionId e r now).2 = updateStore st u := by
  unfold stopSession
  cases hfind : findOwnedSession st userId sessionId with
  | none => left; rfl
  | some s0 =>
    by_cases hs : s0.status = Status.active
    · right
      refine ⟨applySaveHook
        { s0 with
          end_time := some (e.getD now)
          status := Status.completed
          end_reason := some (r.getD EndReason.completed) }, ?_, rfl, ?_⟩
      · constructor
        · simp [applySaveHook]
        · intro e0 dm he hdm
          simp only [applySaveHook, Option.some.injEq] at he hdm
          rw [← hdm, ← he]
          rfl
      · simp [hs]
    · left
      simp [hs]

/-- C3 (amended): in every store reachable through the start/stop
lifecycle, `duration_minutes` is set iff `end_time` is set, and then equals
`floor((end_time − start_time)/60000)` — a value that is negative when the
stop request carried an `end_time` earlier than `start_time`. -/
theorem C3_duration_iff_end_time (st : Store) (h : Reachable st) :
    ∀ s ∈ st, durationInvariant s := by
  induction h with
  | empty => intro s hs; cases hs
  | start st0 userId req now newId hst ih =>
    intro s hs
    rcases startSession_store st0 userId req now newId with heq | ⟨hfind, t, heq⟩
    · rw [heq] at hs; exact ih s hs
    · rw [heq] at hs
      rcases List.mem_append.mp hs with h1 | h2
      · exact ih s h1
      · have hsn := List.mem_singleton.mp h2
        subst hsn
        exact ⟨by simp [newSession], by intro e dm he _; simp [newSession] at he⟩
  | stop st0 userId sessionId e r now hst ih =>
    intro s hs
    rcases stopSession_store st0 userId sessionId e r now with heq | ⟨u, hu, _, heq⟩
    · rw [heq] at hs; exact ih s hs
    · rw [heq] at hs
      rcases mem_updateStore st0 u s hs with hsu | hmem
      · exact hsu ▸ hu
      · exact ih s hmem

/-- Witness for C3 at a concrete store reached by one start and one stop. -/
theorem C3_duration_iff_end_time_witness :
    Reachable (stopSession (startSession [] 1
        ⟨StartType.immediate, none, none, PlanType.p16_8⟩ 0 10).2
        1 10 (some 3900000) none 3900000).2 ∧
    ∀ s ∈ (stopSession (startSession [] 1
        ⟨StartType.immediate, none, none, PlanType.p16_8⟩ 0 10).2
        1 10 (some 3900000) none 3900000).2, durationInvariant s :=
  have hr : Reachable (stopSession (startSession [] 1
      ⟨StartType.immediate, none, none, PlanType.p16_8⟩ 0 10).2
      1 10 (some 3900000) none 3900000).2 :=
    Reachable.stop _ 1 10 (some 3900000) none 3900000
      (Reachable.start _ 1 _ 0 10 Reachable.empty)
  ⟨hr, C3_duration_iff_end_time _ hr⟩

/-- C3 counterexample: stopping with a caller-supplied `end_time` earlier
than `start_time` persists the negative duration −1 minute, refuting
`duration_minutes ≥ 0`. -/
theorem C3_counterexample :
    ((stopSession (startSession [] 1
        ⟨StartType.immediate, none, none, PlanType.p16_8⟩ 60000 10).2
        1 10 (some 0) none 60000).2.map (fun s => s.duration_minutes)) =
      [some (-1)] := by decide

/-- After replacing the stored document whose `_id` occurs in the store,
the owner's lookup of that id returns the replacement. -/
theorem findOwned_updateStore (userId sessionId : ℕ) (u : Session)
    (hid : u.id = sessionId) (huid : u.user_id = userId) :
    ∀ st : Store, (∃ x ∈ st, x.id = sessionId) →
      findOwnedSession (updateStore st u) userId sessionId = some u := by
  intro st
  induction st with
  | nil =>
    rintro ⟨x, hx, _⟩
    cases hx
  | cons a l ih =>
    rintro ⟨x, hx, hxid⟩
    unfold findOwnedSession updateStore
    simp only [List.map_cons, List.find?_cons]
    by_cases ha : a.id = u.id
    · rw [if_pos (by simp [ha])]
      have hp : (u.id == sessionId && u.user_id == userId) = true := by
        simp [hid, huid]
      rw [hp]
    · rw [if_neg (by simp [ha])]
      have hp : (a.id == sessionId && a.user_id == userId) = false := by
        have : a.id ≠ sessionId := by rw [← hid]; exact ha
        simp [this]
      rw [hp]
      have hex : ∃ x ∈ l, x.id = sessionId := by
        rcases List.mem_cons.mp hx with hxa | hxl
        · exfalso
          apply ha
          rw [← hxa, hxid, hid]
        · exact ⟨x, hxl, hxid⟩
      have := ih hex
      unfold findOwnedSession updateStore at this
      exact this

/-- C4: the stop handler fails with `SessionNotFound` when the caller owns
no session with the given id, fails with `SessionNotActive` when the owned
session is not active, and on success completes the session with defaulted
`end_time` and `end_reason`; any further stop of the same id then yields
`SessionNotActive`. -/
theorem C4_stop_error_handling (st : Store) (userId sessionId : ℕ)
    (e : Option ℤ) (r : Option EndReason) (now : ℤ) :
    (findOwnedSession st userId sessionId = none →
      stopSession st userId sessionId e r now =
        (Except.error ApiError.invalidSession, st)) ∧
    (∀ s, findOwnedSession st userId sessionId = some s →
      s.status ≠ Status.active →
      stopSession st userId sessionId e r now =
        (Except.error ApiError.noActiveSession, st)) ∧
    (∀ s, findOwnedSession st userId sessionId = some s →
      s.status = Status.active →
      ∃ u, stopSession st userId sessionId e r now =
          (Except.ok u, updateStore st u) ∧
        u.status = Status.completed ∧
        u.end_time = some (e.getD now) ∧
        u.end_reason = some (r.getD EndReason.completed) ∧
        ∀ e2 r2 now2,
          (stopSession (stopSession st userId sessionId e r now).2
            userId sessionId e2 r2 now2).1 =
            Except.error ApiError.noActiveSession) := by
  refine ⟨?_, ?_, ?_⟩
  · intro h
    unfold stopSession
    rw [h]
  · intro s hs hstat
    unfold stopSession
    rw [hs]
    simp [hstat]
  · intro s hs hstat
    have hps := List.find?_some hs
    have hsid : s.id = sessionId := by
      simp only [Bool.and_eq_true, beq_iff_eq] at hps
      exact hps.1
    have hsmem : s ∈ st := List.mem_of_find?_eq_some hs
    refine ⟨applySaveHook
      { s with
        end_time := some (e.getD now)
        status := Status.completed
        end_reason := some (r.getD EndReason.completed) }, ?_, rfl, rfl, rfl, ?_⟩
    · unfold stopSession
      rw [hs]
      simp [hstat]
    · intro e2 r2 now2
      have hstore : (stopSession st userId sessionId e r now).2 =
          updateStore st (applySaveHook
            { s with
              end_time := some (e.getD now)
              status := Status.completed
              end_reason := some (r.getD EndReason.completed) }) := by
        unfold stopSession
        rw [hs]
        simp [hstat]
      have hsuid : s.user_id = userId := by
        simp only [Bool.and_eq_true, beq_iff_eq] at hps
        exact hps.2
      rw [hstore]
      unfold stopSession
      rw [findOwned_updateStore userId sessionId
        (applySaveHook
          { s with
            end_time := some (e.getD now)
            status := Status.completed
            end_reason := some (r.getD EndReason.completed) })
        (show _ = sessionId from hsid) (show _ = userId from hsuid)
        st ⟨s, hsmem, hsid⟩]
      simp [applySaveHook]

/-- Witness for C4: stopping the single active session of user 1 and
stopping it again. -/
theorem C4_stop_error_handling_witness :
    ∃ u, stopSession [⟨10, 1, 0, none, none, StartType.immediate, none, none,
          Status.active, PlanType.p16_8, none⟩] 1 10 (some 60000) none 99 =
        (Except.ok u, updateStore [⟨10, 1, 0, none, none, StartType.immediate,
          none, none, Status.active, PlanType.p16_8, none⟩] u) ∧
      u.status = Status.completed ∧
      u.end_time = some ((some (60000 : ℤ)).getD 99) ∧
      u.end_reason = some ((none : Option EndReason).getD EndReason.completed) ∧
      ∀ e2 r2 now2,
        (stopSession (stopSession [⟨10, 1, 0, none, none, StartType.immediate,
            none, none, Status.active, PlanType.p16_8, none⟩] 1 10
            (some 60000) none 99).2 1 10 e2 r2 now2).1 =
          Except.error ApiError.noActiveSession :=
  (C4_stop_error_handling [⟨10, 1, 0, none, none, StartType.immediate, none,
      none, Status.active, PlanType.p16_8, none⟩] 1 10 (some 60000) none
      99).2.2 ⟨10, 1, 0, none, none, StartType.immediate, none, none,
      Status.active, PlanType.p16_8, none⟩ (by decide) (by decide)

/-- C5: `GET /current` returns null when the user has no active session;
when an active session (with unset `end_time`) exists, the returned
`duration_minutes` is computed live as `floor((now − start_time)/60000)`
and the store is returned unwritten. -/
theorem C5_current_live_duration (st : Store) (userId : ℕ) (now : ℤ) :
    ((∀ s ∈ st, ¬(s.user_id = userId ∧ s.status = Status.active)) →
      currentSession st userId now = (none, st)) ∧
    (∀ s, findActiveSession st userId = some s → s.end_time = none →
      currentSession st userId now =
        (some { s with
          duration_minutes := some (Int.fdiv (now - s.start_time) 60000) },
          st)) := by
  constructor
  · intro h
    have hfind : findActiveSession st userId = none := by
      unfold findActiveSession
      rw [List.find?_eq_none]
      intro x hx
      have := h x hx
      simp only [Bool.and_eq_true, beq_iff_eq, not_and]
      intro h1
      exact fun h2 => this ⟨h1, h2⟩
    unfold currentSession
    rw [hfind]
  · intro s hs hend
    unfold currentSession
    rw [hs]
    dsimp only
    rw [hend]

/-- Witness for C5: a single active session started at time 0, polled at
7500000 ms, reports 125 live minutes. -/
theorem C5_current_live_duration_witness :
    currentSession [⟨10, 1, 0, none, none, StartType.immediate, none, none,
        Status.active, PlanType.p16_8, none⟩] 1 7500000 =
      (some { (⟨10, 1, 0, none, none, StartType.immediate, none, none,
        Status.active, PlanType.p16_8, none⟩ : Session) with
          duration_minutes := some (Int.fdiv ((7500000 : ℤ) - 0) 60000) },
        [⟨10, 1, 0, none, none, StartType.immediate, none, none,
          Status.active, PlanType.p16_8, none⟩]) :=
  (C5_current_live_duration [⟨10, 1, 0, none, none, StartType.immediate,
      none, none, Status.active, PlanType.p16_8, none⟩] 1 7500000).2
    ⟨10, 1, 0, none, none, StartType.immediate, none, none, Status.active,
      PlanType.p16_8, none⟩ (by decide) (by decide)

/-- C8: the start handler fails with `ActiveSessionExists` whenever the
user already has an active session, and then persists nothing. -/
theorem C8_start_rejected_when_active (st : Store) (userId : ℕ)
    (req : StartRequest) (now : ℤ) (newId : ℕ)
    (h : ∃ s ∈ st, s.user_id = userId ∧ s.status = Status.active) :
    startSession st userId req now newId =
      (Except.error StartError.alreadyFasting, st) := by
  obtain ⟨s, hs, h1, h2⟩ := h
  have hsome : (findActiveSession st userId).isSome = true := by
    unfold findActiveSession
    rw [List.find?_isSome]
    exact ⟨s, hs, by simp [h1, h2]⟩
  obtain ⟨x, hx⟩ := Option.isSome_iff_exists.mp hsome
  unfold startSession
  rw [hx]

/-- Witness for C8 at a one-active-session store. -/
theorem C8_start_rejected_when_active_witness :
    startSession [⟨10, 1, 0, none, none, StartType.immediate, none, none,
        Status.active, PlanType.p16_8, none⟩] 1
      ⟨StartType.immediate, none, none, PlanType.p18_6⟩ 500 11 =
      (Except.error StartError.alreadyFasting,
        [⟨10, 1, 0, none, none, StartType.immediate, none, none,
          Status.active, PlanType.p16_8, none⟩]) :=
  C8_start_rejected_when_active _ 1 _ 500 11
    ⟨⟨10, 1, 0, none, none, StartType.immediate, none, none, Status.active,
      PlanType.p16_8, none⟩, by decide, by decide, by decide⟩

/-- C9: with no active session, a custom start is rejected exactly when
both offsets are falsy (absent or zero) — so a 0h0m offset never reaches
persistence — and otherwise persists
`start_time = now − (hours*60 + minutes)·60000`; an immediate start
persists `start_time = now`. -/
theorem C9_custom_start_time (st : Store) (userId : ℕ) (h m : Option ℕ)
    (p : PlanType) (now : ℤ) (newId : ℕ)
    (hno : findActiveSession st userId = none) :
    (startSession st userId ⟨StartType.custom, h, m, p⟩ now newId =
        (Except.error StartError.validationError, st) ↔
      (h.getD 0 = 0 ∧ m.getD 0 = 0)) ∧
    (¬(h.getD 0 = 0 ∧ m.getD 0 = 0) →
      ∃ s, startSession st userId ⟨StartType.custom, h, m, p⟩ now newId =
          (Except.ok s, st ++ [s]) ∧
        s.start_time = now - ((h.getD 0 : ℤ) * 60 + (m.getD 0 : ℤ)) * 60 * 1000) ∧
    (∃ s, startSession st userId ⟨StartType.immediate, h, m, p⟩ now newId =
      (Except.ok s, st ++ [s]) ∧ s.start_time = now) := by
  refine ⟨?_, ?_, ?_⟩
  · unfold startSession
    rw [hno]
    cases hb : (isFalsy h && isFalsy m) with
    | true =>
      have hz : h.getD 0 = 0 ∧ m.getD 0 = 0 := by
        simpa [isFalsy] using hb
      simp [hb, hz]
    | false =>
      have hnb : ¬(h.getD 0 = 0 ∧ m.getD 0 = 0) := by
        rintro ⟨h1, h2⟩
        simp [isFalsy, h1, h2] at hb
      simp only [hb, Bool.false_eq_true, if_false]
      constructor
      · intro hcontr
        exact absurd (congrArg Prod.fst hcontr) (by simp)
      · intro hzz
        exact absurd hzz hnb
  · intro hnz
    unfold startSession
    rw [hno]
    have hb : (isFalsy h && isFalsy m) = false := by
      cases hb : (isFalsy h && isFalsy m) with
      | true =>
        exact absurd (by simpa [isFalsy] using hb) hnz
      | false => rfl
    simp only [hb, Bool.false_eq_true, if_false]
    exact ⟨newSession userId newId (calculateCustomStartTime (h.getD 0)
      (m.getD 0) now) ⟨StartType.custom, h, m, p⟩, rfl, rfl⟩
  · unfold startSession
    rw [hno]
    exact ⟨newSession userId newId now ⟨StartType.immediate, h, m, p⟩, rfl, rfl⟩

/-- Witness for C9: a custom start 16h30m ago from an empty store. -/
theorem C9_custom_start_time_witness :
    ¬((some (16:ℕ)).getD 0 = 0 ∧ (some (30:ℕ)).getD 0 = 0) ∧
    ∃ s, startSession [] 1 ⟨StartType.custom, some 16, some 30,
        PlanType.p16_8⟩ 0 11 = (Except.ok s, [] ++ [s]) ∧
      s.start_time = 0 - (((some (16:ℕ)).getD 0 : ℤ) * 60 +
        ((some (30:ℕ)).getD 0 : ℤ)) * 60 * 1000 :=
  ⟨by decide,
    (C9_custom_start_time [] 1 (some 16) (some 30) PlanType.p16_8 0 11
      rfl).2.1 (by decide)⟩

/-- `round2` is monotone. -/
theorem round2_mono (q r : ℚ) (h : q ≤ r) : round2 q ≤ round2 r := by
  unfold round2
  have hj : jsRound (q * 100) ≤ jsRound (r * 100) := by
    rw [jsRound_eq_floor, jsRound_eq_floor]
    exact Int.floor_le_floor (by linarith)
  have : ((jsRound (q * 100) : ℤ) : ℚ) ≤ ((jsRound (r * 100) : ℤ) : ℚ) := by
    exact_mod_cast hj
  linarith

/-- Rounding to 2 decimals fixes 100. -/
theorem round2_hundred : round2 100 = 100 := by
  simpa using round2_intCast 100

/-- Capping at 100 commutes with rounding to 2 decimals, so the code's
`min(100, round2 x)` equals the spec's `round2 (min(100, x))`. -/
theorem min_hundred_round2 (q : ℚ) : min 100 (round2 q) = round2 (min 100 q) := by
  rcases le_total q 100 with h | h
  · rw [min_eq_right h, min_eq_right]
    calc round2 q ≤ round2 100 := round2_mono q 100 h
    _ = 100 := round2_hundred
  · rw [min_eq_left h, round2_hundred, min_eq_left]
    calc (100 : ℚ) = round2 100 := round2_hundred.symm
    _ ≤ round2 q := round2_mono 100 q h

/-- C6 (amended): the plan-progress fields are the claim's formulas with
the reported `completed_hours` and `remaining_hours` rounded to 2 decimals
(the percentage cap commutes with that rounding); at d = 65 under plan 16:8
the completion percentage is 6.77 and the remaining hours are 14.92. -/
theorem C6_plan_progress (d : ℤ) (p : PlanType) :
    (calculatePlanProgress (some d) p).plan_hours = p.planHours ∧
    (calculatePlanProgress (some d) p).completed_hours = round2 ((d : ℚ) / 60) ∧
    (calculatePlanProgress (some d) p).completion_percentage =
      round2 (min 100 ((d : ℚ) / 60 / (p.planHours : ℚ) * 100)) ∧
    (calculatePlanProgress (some d) p).remaining_hours =
      round2 (max 0 ((p.planHours : ℚ) - (d : ℚ) / 60)) ∧
    (calculatePlanProgress (some 65) PlanType.p16_8).completion_percentage =
      677/100 ∧
    (calculatePlanProgress (some 65) PlanType.p16_8).remaining_hours =
      1492/100 := by
  refine ⟨rfl, rfl, ?_, rfl, ?_, ?_⟩
  · exact min_hundred_round2 _
  · show min 100 (round2 (((65:ℤ) : ℚ) / 60 / ((16:ℤ) : ℚ) * 100)) = 677/100
    rw [show (((65:ℤ) : ℚ) / 60 / ((16:ℤ) : ℚ) * 100) = 1300/192 by norm_num,
      round2_eq_of_bounds (1300/192) 677 (by norm_num) (by norm_num)]
    rw [min_eq_right (by norm_num)]
    norm_num
  · show round2 (max 0 (((16:ℤ) : ℚ) - ((65:ℤ) : ℚ) / 60)) = 1492/100
    rw [show (max 0 (((16:ℤ) : ℚ) - ((65:ℤ) : ℚ) / 60)) = 179/12 by
        rw [max_eq_right (by norm_num)]; norm_num,
      round2_eq_of_bounds (179/12) 1492 (by norm_num) (by norm_num)]
    norm_num

/-- C6 counterexample: at d = 65 the reported `completed_hours` is the
rounded value 1.08, not 65/60 ≈ 1.0833. -/
theorem C6_counterexample :
    (calculatePlanProgress (some 65) PlanType.p16_8).completed_hours =
      108/100 ∧ (108/100 : ℚ) ≠ (65 : ℚ) / 60 := by
  constructor
  · show round2 (((65:ℤ) : ℚ) / 60) = 108/100
    rw [show (((65:ℤ) : ℚ) / 60) = 65/60 by norm_num,
      round2_eq_of_bounds (65/60) 108 (by norm_num) (by norm_num)]
    norm_num
  · norm_num

/-- Rounding to 2 decimals fixes 0. -/
theorem round2_zero : round2 0 = 0 := by
  simpa using round2_intCast 0

/-- With a zero duration the remaining hours are the full plan hours. -/
theorem round2_max_planHours (p : PlanType) :
    round2 (max 0 ((p.planHours : ℚ) - ((0:ℤ) : ℚ) / 60)) = (p.planHours : ℚ) := by
  have h0 : (0:ℚ) ≤ (p.planHours : ℚ) - ((0:ℤ) : ℚ) / 60 := by
    cases p <;> norm_num [PlanType.planHours]
  rw [max_eq_right h0,
    show (p.planHours : ℚ) - ((0:ℤ) : ℚ) / 60 = ((p.planHours : ℤ) : ℚ) by norm_num]
  exact round2_intCast _

/-- C10: per-session analytics of a still-active session (unset
`duration_minutes`) succeeds and treats the duration as 0: every phase has
0 minutes and 0 percent, completed hours and completion percentage are 0,
and the remaining hours equal the full plan hours. -/
theorem C10_analytics_of_active_session (st : Store) (userId sessionId : ℕ)
    (s : Session) (hfind : findOwnedSession st userId sessionId = some s)
    (hdur : s.duration_minutes = none) :
    ∃ a, sessionAnalytics st userId sessionId = Except.ok a ∧
      a.total_duration_minutes = 0 ∧
      a.metabolic_states.fed.duration_minutes = 0 ∧
      a.metabolic_states.transition.duration_minutes = 0 ∧
      a.metabolic_states.fasting.duration_minutes = 0 ∧
      a.metabolic_states.ketosis.duration_minutes = 0 ∧
      a.metabolic_states.fed.percentage = 0 ∧
      a.metabolic_states.transition.percentage = 0 ∧
      a.metabolic_states.fasting.percentage = 0 ∧
      a.metabolic_states.ketosis.percentage = 0 ∧
      a.plan_progress.completed_hours = 0 ∧
      a.plan_progress.completion_percentage = 0 ∧
      a.plan_progress.remaining_hours = (s.plan_type.planHours : ℚ) := by
  refine ⟨_, by unfold sessionAnalytics; rw [hfind], ?_, ?_, ?_, ?_, ?_, ?_,
    ?_, ?_, ?_, ?_, ?_, ?_⟩
  · simp [hdur]
  · simp [calculateMetabolicStates, hdur]
  · simp only [calculateMetabolicStates, hdur, Option.getD_none]
    decide
  · simp only [calculateMetabolicStates, hdur, Option.getD_none]
    decide
  · simp only [calculateMetabolicStates, hdur, Option.getD_none]
    decide
  · simp only [calculateMetabolicStates, hdur, Option.getD_none]
    rw [show ((min (0:ℤ) 240 : ℤ) : ℚ) / ((orOne 0 : ℤ) : ℚ) * 100 = 0 by
      norm_num [orOne]]
    exact round2_zero
  · simp only [calculateMetabolicStates, hdur, Option.getD_none]
    rw [show ((max 0 (min ((0:ℤ) - 240) 480) : ℤ) : ℚ) /
        ((orOne 0 : ℤ) : ℚ) * 100 = 0 by norm_num [orOne, min_def, max_def]]
    exact round2_zero
  · simp only [calculateMetabolicStates, hdur, Option.getD_none]
    rw [show ((max 0 (min ((0:ℤ) - 720) 240) : ℤ) : ℚ) /
        ((orOne 0 : ℤ) : ℚ) * 100 = 0 by norm_num [orOne, min_def, max_def]]
    exact round2_zero
  · simp only [calculateMetabolicStates, hdur, Option.getD_none]
    rw [show ((max 0 ((0:ℤ) - 960) : ℤ) : ℚ) / ((orOne 0 : ℤ) : ℚ) * 100 = 0 by
      norm_num [orOne, max_def]]
    exact round2_zero
  · simp only [calculatePlanProgress, hdur, Option.getD_none]
    rw [show ((0:ℤ) : ℚ) / 60 = ((0:ℤ) : ℚ) by norm_num]
    exact round2_intCast 0
  · simp only [calculatePlanProgress, hdur, Option.getD_none]
    rw [show ((0:ℤ) : ℚ) / 60 / (s.plan_type.planHours : ℚ) * 100 = 0 by
      norm_num]
    rw [round2_zero, min_eq_right (by norm_num)]
  · simp only [calculatePlanProgress, hdur, Option.getD_none]
    exact round2_max_planHours s.plan_type

/-- Witness for C10 at a store holding one active session. -/
theorem C10_analytics_of_active_session_witness :
    ∃ a, sessionAnalytics [⟨10, 1, 0, none, none, StartType.immediate, none,
        none, Status.active, PlanType.p16_8, none⟩] 1 10 = Except.ok a ∧
      a.total_duration_minutes = 0 ∧
      a.metabolic_states.fed.duration_minutes = 0 ∧
      a.metabolic_states.transition.duration_minutes = 0 ∧
      a.metabolic_states.fasting.duration_minutes = 0 ∧
      a.metabolic_states.ketosis.duration_minutes = 0 ∧
      a.metabolic_states.fed.percentage = 0 ∧
      a.metabolic_states.transition.percentage = 0 ∧
      a.metabolic_states.fasting.percentage = 0 ∧
      a.metabolic_states.ketosis.percentage = 0 ∧
      a.plan_progress.completed_hours = 0 ∧
      a.plan_progress.completion_percentage = 0 ∧
      a.plan_progress.remaining_hours =
        ((⟨10, 1, 0, none, none, StartType.immediate, none, none,
          Status.active, PlanType.p16_8, none⟩ : Session).plan_type.planHours : ℚ) :=
  C10_analytics_of_active_session _ 1 10
    ⟨10, 1, 0, none, none, StartType.immediate, none, none, Status.active,
      PlanType.p16_8, none⟩ (by decide) rfl

/-- C7: the summary's streak loop accepts the i-th session only when its
calendar day lies exactly i days before today, so a second completed
session on the same day breaks the walk.  With completed sessions ending on
day 2, day 2 and day 1 (listed by `start_time` descending, today on day 2)
the handler computes 1 while the specified backward walk over calendar days
with at least one completed session counts 2. -/
theorem C7_streak_duplicate_day :
    summaryStreak
      [⟨30, 1, 180000000, some 183600000, some 60, StartType.immediate, none,
        none, Status.completed, PlanType.p16_8, some EndReason.completed⟩,
       ⟨31, 1, 176400000, some 178200000, some 30, StartType.immediate, none,
        none, Status.completed, PlanType.p16_8, some EndReason.completed⟩,
       ⟨32, 1, 90000000, some 93600000, some 60, StartType.immediate, none,
        none, Status.completed, PlanType.p16_8, some EndReason.completed⟩]
      190800000 = 1 ∧
    specCurrentStreakDays 190800000 [183600000, 178200000, 93600000] = 2 := by
  constructor <;> decide

end FastApi
